import Mathlib

/-!
Verification of the Open-Probe backend session lifecycle and orchestrator
against its specification.

The definitions below are a shallow embedding of the Python sources:
* `backend/app/models/search.py`   — status enums, step and session records;
* `backend/app/services/session_manager.py` — the in-memory session store;
* `backend/app/services/search_service.py`  — start/cancel/task error paths;
* `backend/app/routes/search.py` + `backend/app/main.py` — the HTTP ingress
  for `POST /api/v1/search`, including the `RequestValidationError` handler;
* `backend/app/services/websocket_service.py` — `send_error` and
  `broadcast_message`;
* `backend/app/services/deepsearch_adapter.py` — `_collect_sources`;
* `src/deepsearch/graph.py` — the `master` node's `<replan>` branch;
* `backend/app/config.py` — the `Settings` defaults.

Python dictionaries are modelled as association lists in insertion order,
Python sets as duplicate-free lists, `datetime` values as natural numbers,
and raised exceptions as `Except String`.
-/

namespace OpenProbe

/-- `SearchStatus` from `backend/app/models/search.py` (lines 6-11).
Note the enum has a `thinking` member and no `running` member. -/
inductive SearchStatus where
  | idle
  | thinking
  | completed
  | error
  | cancelled
deriving DecidableEq, Repr

/-- The string value of each `SearchStatus` member (it is a `str` Enum). -/
def SearchStatus.value : SearchStatus → String
  | .idle => "idle"
  | .thinking => "thinking"
  | .completed => "completed"
  | .error => "error"
  | .cancelled => "cancelled"

/-- `StepType` from `backend/app/models/search.py`. -/
inductive StepType where
  | plan
  | search
  | code
  | llm
  | solve
  | replan
deriving DecidableEq, Repr

/-- `StepStatus` from `backend/app/models/search.py`. -/
inductive StepStatus where
  | pending
  | running
  | completed
  | failed
deriving DecidableEq, Repr

/-- `SourceInfo` from `backend/app/models/search.py`. -/
structure SourceInfo where
  title : String
  link : String
  snippet : Option String
deriving DecidableEq, Repr

/-- One raw source entry as found in `StepMetadata.sources`: either a dict
(whose keys `title`/`link`/`snippet` may be absent, modelled as `Option`),
or some non-dict value (a plain string), which `_collect_sources` skips. -/
inductive RawSource where
  | dict (title : Option String) (link : Option String) (snippet : Option String)
  | other (s : String)
deriving DecidableEq, Repr

/-- The part of `StepMetadata` (`backend/app/models/search.py`) that the
claims exercise: the optional `sources` list. -/
structure StepMetadata where
  sources : Option (List RawSource)
deriving DecidableEq, Repr

/-- `ThinkingStep` from `backend/app/models/search.py`. -/
structure ThinkingStep where
  id : String
  type : StepType
  status : StepStatus
  title : String
  content : Option String
  timestamp : Nat
  metadata : Option StepMetadata
deriving DecidableEq, Repr

/-- `SearchResult` from `backend/app/models/search.py` — the Session record. -/
structure SearchResult where
  id : String
  query : String
  status : SearchStatus
  steps : List ThinkingStep
  final_answer : Option String
  sources : List SourceInfo
  start_time : Nat
  end_time : Option Nat
  error : Option String
  duration_seconds : Option Int
deriving DecidableEq, Repr

/-- `Settings.MAX_CONCURRENT_SEARCHES` default, `backend/app/config.py` line 30. -/
def MAX_CONCURRENT_SEARCHES : Nat := 10

/-- `Settings.MAX_REPLAN_ITER` default, `backend/app/config.py` line 34. -/
def MAX_REPLAN_ITER : Nat := 1

/-- The terminal-status test used throughout `session_manager.py`:
`status in [SearchStatus.COMPLETED, SearchStatus.ERROR, SearchStatus.CANCELLED]`. -/
def SearchStatus.isTerminal : SearchStatus → Bool
  | .completed => true
  | .error => true
  | .cancelled => true
  | _ => false

/-- Python dict assignment `d[k] = v` on an insertion-ordered dict:
overwrite in place if the key exists, otherwise append. -/
def dictSet (l : List (String × SearchResult)) (k : String) (v : SearchResult) :
    List (String × SearchResult) :=
  if l.any (fun p => p.1 = k) then
    l.map (fun p => if p.1 = k then (p.1, v) else p)
  else
    l ++ [(k, v)]

/-- Python dict lookup `d.get(k)`. -/
def dictGet (l : List (String × SearchResult)) (k : String) : Option SearchResult :=
  (l.find? (fun p => p.1 = k)).map (fun p => p.2)

/-- Python set `s.add(x)`. -/
def setAdd (l : List String) (x : String) : List String :=
  if x ∈ l then l else l ++ [x]

/-- Python set `s.discard(x)`. -/
def setDiscard (l : List String) (x : String) : List String :=
  l.filter (fun y => y ≠ x)

/-- The mutable state of `SessionManager` (`session_manager.py`):
`_sessions` dict and `_active_searches` set. -/
structure SessionManager where
  sessions : List (String × SearchResult)
  active_searches : List String
deriving DecidableEq, Repr

/-- The empty store built by `SessionManager.__init__`. -/
def SessionManager.empty : SessionManager :=
  { sessions := [], active_searches := [] }

/-- `SessionManager.create_search_session` (`session_manager.py` lines 66-82).
The fresh uuid is passed in as `search_id`; `now` stands for `datetime.utcnow()`. -/
def create_search_session (m : SessionManager) (query : String)
    (search_id : String) (now : Nat) : SessionManager × String :=
  let session : SearchResult :=
    { id := search_id
      query := query
      status := .thinking
      steps := []
      final_answer := none
      sources := []
      start_time := now
      end_time := none
      error := none
      duration_seconds := none }
  ({ sessions := dictSet m.sessions search_id session
     active_searches := setAdd m.active_searches search_id }, search_id)

/-- `SessionManager.update_session_status` (`session_manager.py` lines 88-103).
Sets the status unconditionally; `if error:` is true only for a non-empty
string; on a terminal target status it stamps `end_time`, computes the
duration and discards the id from the active set. -/
def update_session_status (m : SessionManager) (search_id : String)
    (status : SearchStatus) (error : Option String) (now : Nat) :
    Except String SessionManager :=
  match dictGet m.sessions search_id with
  | none => .error ("Session " ++ search_id ++ " not found")
  | some session =>
    let session := { session with status := status }
    let session :=
      match error with
      | some e => if e = "" then session else { session with error := some e }
      | none => session
    if status.isTerminal then
      let session := { session with
        end_time := some now
        duration_seconds := some ((now : Int) - (session.start_time : Int)) }
      .ok { sessions := dictSet m.sessions search_id session
            active_searches := setDiscard m.active_searches search_id }
    else
      .ok { m with sessions := dictSet m.sessions search_id session }

/-- The step-list update inside `SessionManager.add_step`
(`session_manager.py` lines 111-122): find the first index whose step id
equals the new step's id; replace there, else append. -/
def addOrReplace (steps : List ThinkingStep) (step : ThinkingStep) :
    List ThinkingStep :=
  match steps.findIdx? (fun s => s.id = step.id) with
  | some i => steps.set i step
  | none => steps ++ [step]

/-- `SessionManager.add_step` (`session_manager.py` lines 105-122). -/
def add_step (m : SessionManager) (search_id : String) (step : ThinkingStep) :
    Except String SessionManager :=
  match dictGet m.sessions search_id with
  | none => .error ("Session " ++ search_id ++ " not found")
  | some session =>
    let session := { session with steps := addOrReplace session.steps step }
    .ok { m with sessions := dictSet m.sessions search_id session }

/-- `SessionManager.set_final_answer` (`session_manager.py` lines 124-132):
store the answer, then `update_session_status(..., COMPLETED)`. -/
def set_final_answer (m : SessionManager) (search_id : String)
    (answer : String) (now : Nat) : Except String SessionManager :=
  match dictGet m.sessions search_id with
  | none => .error ("Session " ++ search_id ++ " not found")
  | some session =>
    let session := { session with final_answer := some answer }
    let m := { m with sessions := dictSet m.sessions search_id session }
    update_session_status m search_id .completed none now

/-- `SessionManager.cancel_search` (`session_manager.py` lines 134-144):
missing session or inactive id raises; otherwise the session is moved to
`CANCELLED` via `update_session_status`. -/
def cancel_search (m : SessionManager) (search_id : String)
    (reason : Option String) (now : Nat) : Except String SessionManager :=
  match dictGet m.sessions search_id with
  | none => .error ("Session " ++ search_id ++ " not found")
  | some _ =>
    if search_id ∈ m.active_searches then
      update_session_status m search_id .cancelled reason now
    else
      .error ("Search " ++ search_id ++ " is not active")

/-- `SessionManager.is_search_active` (`session_manager.py` lines 169-171). -/
def is_search_active (m : SessionManager) (search_id : String) : Bool :=
  search_id ∈ m.active_searches

/-- Python `str.strip()`: drop leading and trailing whitespace characters. -/
def pyStrip (s : String) : String :=
  String.mk (((s.data.dropWhile Char.isWhitespace).reverse.dropWhile
    Char.isWhitespace).reverse)

/-- `SearchService.start_search` (`search_service.py` lines 26-45): the only
validation is the emptiness check on the stripped query (`not query or not
query.strip()`); on success a session is created unconditionally — no
concurrency-cap check appears anywhere in the function. The fresh uuid is
`fresh_id`. -/
def start_search (m : SessionManager) (query : String) (fresh_id : String)
    (now : Nat) : Except String (SessionManager × String) :=
  if pyStrip query = "" then
    .error "Failed to start search: Query cannot be empty"
  else
    .ok (create_search_session m (pyStrip query) fresh_id now)

/-- HTTP outcome of one `POST /api/v1/search` request: the status code the
client sees, the resulting store, and the created id if any. -/
structure PostSearchOutcome where
  status_code : Nat
  store : SessionManager
  search_id : Option String
deriving DecidableEq, Repr

/-- The full ingress pipeline for `POST /api/v1/search`:
1. pydantic validation of `SearchRequest.query` (`models/search.py` line 35:
   `min_length=1, max_length=1000`); a violation raises
   `RequestValidationError`, which the handler in `main.py` (lines 96-109)
   answers with status 422 — the route body never runs;
2. the route body (`routes/search.py` lines 30-61): it strips the query and
   raises `invalid_search_query_exception` (an `HTTPException(400)`) when the
   stripped query is empty or longer than 1000 characters — but that raise
   happens inside the route's own `try`, whose trailing `except Exception`
   catches the `HTTPException` and re-raises a 500 `internal_server_error_exception`;
3. otherwise `SearchService.start_search` runs and the route returns 200. -/
def post_search (m : SessionManager) (raw_query : String) (fresh_id : String)
    (now : Nat) : PostSearchOutcome :=
  if raw_query.length < 1 ∨ raw_query.length > 1000 then
    { status_code := 422, store := m, search_id := none }
  else
    let query := pyStrip raw_query
    if query = "" then
      { status_code := 500, store := m, search_id := none }
    else if query.length > 1000 then
      { status_code := 500, store := m, search_id := none }
    else
      match start_search m query fresh_id now with
      | .ok (m', sid) => { status_code := 200, store := m', search_id := some sid }
      | .error _ => { status_code := 400, store := m, search_id := none }

/-- `ErrorData` from `backend/app/models/websocket.py`, as populated by
`WebSocketManager.send_error`. -/
structure ErrorData where
  error : String
  step_id : Option String
  recoverable : Bool
deriving DecidableEq, Repr

/-- The `error` event envelope built by `WebSocketManager.send_error`. -/
structure ErrorMessage where
  timestamp : Nat
  search_id : Option String
  data : ErrorData
deriving DecidableEq, Repr

/-- `WebSocketManager.send_error` (`websocket_service.py` lines 187-198):
the `ErrorData` payload is always constructed with `recoverable=True`. -/
def send_error (error : String) (search_id step_id : Option String)
    (now : Nat) : ErrorMessage :=
  { timestamp := now
    search_id := search_id
    data := { error := error, step_id := step_id, recoverable := true } }

/-- The `DeepSearchIntegrationException` branch of
`SearchService._execute_search_task` (`search_service.py` lines 71-81): the
session is moved to the terminal status `ERROR`, then `send_error`
broadcasts the failure. Returns the updated store together with the
broadcast error event. -/
def execute_search_task_on_integration_error (m : SessionManager)
    (search_id : String) (msg : String) (now : Nat) :
    Except String SessionManager × ErrorMessage :=
  (update_session_status m search_id .error (some ("Integration error: " ++ msg)) now,
   send_error ("Search system error: " ++ msg) (some search_id) none now)

/-- The per-client loop body of `WebSocketManager.broadcast_message`
(`websocket_service.py` lines 137-148), folded over the registry in order:
a successful send delivers the message to that client; a failing send only
records the client in `disconnected_clients`. `send_ok c` tells whether
`websocket.send_text` succeeds for client `c`. Returns
`(delivered clients, disconnected clients)` in iteration order. -/
def broadcastLoop (conns : List String) (send_ok : String → Bool) :
    List String × List String :=
  match conns with
  | [] => ([], [])
  | c :: rest =>
    let (delivered, disconnected) := broadcastLoop rest send_ok
    if send_ok c then (c :: delivered, disconnected)
    else (delivered, c :: disconnected)

/-- `WebSocketManager.broadcast_message` (`websocket_service.py` lines
129-154): run the delivery loop over every registered client, then — only
after the loop — remove each failed client from the registry via
`disconnect_client`. Returns `(delivered clients, surviving registry)`. -/
def broadcast_message (conns : List String) (send_ok : String → Bool) :
    List String × List String :=
  if conns = [] then ([], conns)
  else
    let (delivered, disconnected) := broadcastLoop conns send_ok
    (delivered, conns.filter (fun c => c ∉ disconnected))

/-- The candidate a raw source entry contributes in
`DeepSearchAdapter._collect_sources` (`deepsearch_adapter.py` lines 480-489):
only a dict with a `link` key whose value is truthy (non-empty) yields a
`SourceInfo`; its title defaults to the link (`source.get('title', link)`). -/
def rawCandidate : RawSource → Option SourceInfo
  | .dict title link snippet =>
    match link with
    | some l => if l = "" then none else some { title := title.getD l, link := l, snippet := snippet }
    | none => none
  | .other _ => none

/-- The inner accumulation step of `_collect_sources`: append the source and
remember its link unless the link was already seen. -/
def collectFold (acc : List SourceInfo × List String) (raw : RawSource) :
    List SourceInfo × List String :=
  match rawCandidate raw with
  | some s => if s.link ∈ acc.2 then acc else (acc.1 ++ [s], acc.2 ++ [s.link])
  | none => acc

/-- The raw source entries one step contributes to the scan: those of
`step.metadata.sources` when both are set (`if step.metadata and
step.metadata.sources`; folding over an empty list is a no-op, matching the
falsiness of `[]`). -/
def stepRawSources (step : ThinkingStep) : List RawSource :=
  match step.metadata with
  | some md => md.sources.getD []
  | none => []

/-- The aggregation loop of `_collect_sources` (`deepsearch_adapter.py`
lines 475-489) over a session's steps in order, starting from empty
`all_sources` and `seen_links`. -/
def collectSourcesList (steps : List ThinkingStep) :
    List SourceInfo × List String :=
  steps.foldl (fun acc step => (stepRawSources step).foldl collectFold acc) ([], [])

/-- `DeepSearchAdapter._collect_sources` (`deepsearch_adapter.py` lines
468-496): look up the session (missing session leaves the store alone),
aggregate, and record the aggregate on the session only when non-empty. -/
def collect_sources (m : SessionManager) (search_id : String) : SessionManager :=
  match dictGet m.sessions search_id with
  | none => m
  | some session =>
    let all_sources := (collectSourcesList session.steps).1
    if all_sources = [] then m
    else
      { m with sessions := dictSet m.sessions search_id { session with sources := all_sources } }

/-- All candidates of the scan, in scan order: the flattening of every
step's raw sources through `rawCandidate`. -/
def sourceCandidates (steps : List ThinkingStep) : List SourceInfo :=
  (steps.flatMap stepRawSources).filterMap rawCandidate

/-- First-seen deduplication step over the candidate stream: keep the
candidate unless its link has been seen. `collectFold` restricted to the
candidates it actually accumulates. -/
def dedupStep (acc : List SourceInfo × List String) (c : SourceInfo) :
    List SourceInfo × List String :=
  if c.link ∈ acc.2 then acc else (acc.1 ++ [c], acc.2 ++ [c.link])

/-- Where the `master` node of `src/deepsearch/graph.py` jumps next. -/
inductive MasterGoto where
  | plan
  | master
deriving DecidableEq, Repr

/-- The `<replan>` branch of the `master` node (`graph.py` lines 298-333):
when `replan_count >= 2` the replan is refused (back to `master` with a
forced-answer message, count unchanged); otherwise the run replans (to
`plan`, count incremented). The configured `max_replan_iter` is never read
here — the bound `2` is hard-coded. -/
def masterReplanBranch (replan_count : Nat) : MasterGoto × Nat :=
  if replan_count ≥ 2 then (.master, replan_count)
  else (.plan, replan_count + 1)

/-- Number of replan transitions actually performed when the model requests
`n` replans in a row starting from `replan_count`: each request runs the
`<replan>` branch and counts only the `goto plan` outcomes. -/
def replansPerformed (replan_count : Nat) : Nat → Nat
  | 0 => 0
  | n + 1 =>
    match masterReplanBranch replan_count with
    | (.plan, c') => 1 + replansPerformed c' n
    | (.master, c') => replansPerformed c' n

/-- Whether an `Except` result is a success. -/
def exceptOk (e : Except String SessionManager) : Bool :=
  match e with
  | .ok _ => true
  | .error _ => false

/-! ### Store helper lemmas -/

theorem dictGet_map_update {l : List (String × SearchResult)} {k : String}
    (v : SearchResult) (h : l.any (fun p => p.1 = k) = true) :
    dictGet (l.map (fun p => if p.1 = k then (p.1, v) else p)) k = some v := by
  induction l with
  | nil => simp at h
  | cons p rest ih =>
    by_cases hp : p.1 = k
    · simp [dictGet, hp]
    · have hr : rest.any (fun p => p.1 = k) = true := by
        simpa [hp] using h
      simpa [dictGet, hp] using ih hr

theorem dictGet_dictSet_self (l : List (String × SearchResult)) (k : String)
    (v : SearchResult) : dictGet (dictSet l k v) k = some v := by
  unfold dictSet
  by_cases h : l.any (fun p => p.1 = k) = true
  · rw [if_pos h]
    exact dictGet_map_update v h
  · rw [if_neg h]
    have hnone : l.find? (fun p => p.1 = k) = none := by
      rw [List.find?_eq_none]
      intro x hx hpx
      exact h (List.any_eq_true.2 ⟨x, hx, hpx⟩)
    simp [dictGet, List.find?_append, hnone]

theorem not_mem_setDiscard (l : List String) (x : String) :
    x ∉ setDiscard l x := by
  intro hx
  have := (List.mem_filter.1 hx).2
  simp at this

/-! ### Claim theorems -/

/-- C4, counterexample. The claim states that every Session's status lies in
{idle, running, completed, error, cancelled}. But the session created by
`create_search_session` has status `thinking`, whose enum value
`"thinking"` is not in that set (the `SearchStatus` enum has no `running`
member at all). -/
theorem create_session_status_outside_claimed_domain :
    ((dictGet ((create_search_session SessionManager.empty "q" "s1" 0).1).sessions
        "s1").map SearchResult.status = some .thinking) ∧
    SearchStatus.thinking.value ∉
      (["idle", "running", "completed", "error", "cancelled"] : List String) := by
  constructor
  · rfl
  · decide

/-- C4, amended. The session status domain is exactly
{idle, thinking, completed, error, cancelled} — `thinking` in place of the
claimed `running` — and immediately after `create_search_session` the new
session's status is `thinking`. -/
theorem session_status_domain :
    (∀ st : SearchStatus,
      st.value ∈ (["idle", "thinking", "completed", "error", "cancelled"] : List String)) ∧
    (∀ (m : SessionManager) (query sid : String) (now : Nat),
      (dictGet ((create_search_session m query sid now).1).sessions sid).map
        SearchResult.status = some .thinking) := by
  constructor
  · intro st
    cases st <;> simp [SearchStatus.value]
  · intro m query sid now
    unfold create_search_session
    rw [dictGet_dictSet_self]
    rfl

/-- C2, counterexample. Starting from a fresh plan (`replan_count = 0`), a
run that requests two replans in a row performs both of them: the `master`
node's `<replan>` branch only refuses once `replan_count >= 2`, and the
configured `MAX_REPLAN_ITER = 1` is never consulted. This violates the
claim that a run configured with `max_replan_iter = 1` never performs a
second replan. -/
theorem two_replans_performed_despite_config :
    replansPerformed 0 2 = 2 ∧ MAX_REPLAN_ITER = 1 ∧
    ¬ replansPerformed 0 2 ≤ MAX_REPLAN_ITER := by decide

/-- Once `replan_count` has reached the hard-coded limit 2, the `<replan>`
branch never grants another replan. -/
theorem replansPerformed_eq_zero_of_le (n : Nat) :
    ∀ c, 2 ≤ c → replansPerformed c n = 0 := by
  induction n with
  | zero => intro c _; rfl
  | succ n ih =>
    intro c hc
    unfold replansPerformed masterReplanBranch
    rw [if_pos hc]
    exact ih c hc

theorem replansPerformed_le (n : Nat) :
    ∀ c, replansPerformed c n ≤ 2 - c := by
  induction n with
  | zero => intro c; simp [replansPerformed]
  | succ n ih =>
    intro c
    unfold replansPerformed masterReplanBranch
    by_cases hc : 2 ≤ c
    · rw [if_pos hc]
      exact ih c
    · rw [if_neg hc]
      show 1 + replansPerformed (c + 1) n ≤ 2 - c
      have := ih (c + 1)
      omega

/-- C2, amended. The replan bound actually enforced by the code is the
hard-coded constant 2 in the `master` node, not the configured
`max_replan_iter` (default 1): a run never performs a third replan, but a
run configured with `max_replan_iter = 1` can still perform a second one. -/
theorem replan_bound_is_hardcoded_two (n : Nat) :
    replansPerformed 0 n ≤ 2 := replansPerformed_le n 0

/-- C6, counterexample. A `POST /api/v1/search` whose raw query is empty is
rejected by pydantic validation (`SearchRequest.query` has `min_length=1`),
which the application's `RequestValidationError` handler answers with HTTP
422 — not the claimed 400. No session is created. -/
theorem empty_query_gets_422_not_400 :
    (post_search SessionManager.empty "" "f1" 0).status_code = 422 ∧
    (post_search SessionManager.empty "" "f1" 0).status_code ≠ 400 ∧
    (post_search SessionManager.empty "" "f1" 0).store = SessionManager.empty := by
  refine ⟨rfl, by decide, rfl⟩

/-- C6, amended. A request whose raw query is empty or longer than 1000
characters is rejected by request validation with HTTP 422 (the route's own
400 paths are preempted by pydantic) and no Session is created: the store
is unchanged and no search id is returned. -/
theorem invalid_query_rejected_without_session (m : SessionManager)
    (raw fid : String) (now : Nat) (h : raw.length = 0 ∨ raw.length > 1000) :
    (post_search m raw fid now).status_code = 422 ∧
    (post_search m raw fid now).store = m ∧
    (post_search m raw fid now).search_id = none := by
  have hc : raw.length < 1 ∨ raw.length > 1000 := by omega
  unfold post_search
  rw [if_pos hc]
  exact ⟨rfl, rfl, rfl⟩

/-- C6, witness for the amended theorem at the empty query. -/
theorem invalid_query_rejected_without_session_witness :
    (post_search SessionManager.empty "" "f1" 0).status_code = 422 ∧
    (post_search SessionManager.empty "" "f1" 0).store = SessionManager.empty ∧
    (post_search SessionManager.empty "" "f1" 0).search_id = none :=
  invalid_query_rejected_without_session SessionManager.empty "" "f1" 0
    (Or.inl rfl)

/-- C7, counterexample. On the `DeepSearchIntegrationException` path of
`_execute_search_task` the session is moved to the terminal status `error`,
yet the broadcast `error` event carries `recoverable = true` —
`send_error` hard-codes `recoverable=True` — contradicting the claim that
terminal errors carry `recoverable=false`. -/
theorem terminal_error_broadcast_recoverable_true :
    (((execute_search_task_on_integration_error
          (create_search_session SessionManager.empty "q" "s" 0).1 "s" "boom" 5).1.toOption.bind
        (fun m => dictGet m.sessions "s")).map
      (fun sess => sess.status.isTerminal) = some true) ∧
    (execute_search_task_on_integration_error
        (create_search_session SessionManager.empty "q" "s" 0).1 "s" "boom" 5).2.data.recoverable
      = true := by
  constructor
  · rfl
  · rfl

/-- Whatever the target status and error argument, `update_session_status`
on an existing session succeeds and the stored session's status afterwards
is the requested one — there is no terminal-state guard. -/
theorem update_session_status_status_after (m : SessionManager) (sid : String)
    (sess : SearchResult) (st : SearchStatus) (err : Option String) (now : Nat)
    (hs : dictGet m.sessions sid = some sess) :
    (update_session_status m sid st err now).toOption.bind
      (fun m' => (dictGet m'.sessions sid).map SearchResult.status) = some st := by
  cases err with
  | none =>
    by_cases ht : st.isTerminal = true <;>
      simp [update_session_status, Except.toOption, hs, ht, dictGet_dictSet_self]
  | some e =>
    by_cases he : e = "" <;> by_cases ht : st.isTerminal = true <;>
      simp [update_session_status, Except.toOption, hs, ht, he, dictGet_dictSet_self]

/-- C7, amended. Every error event built by `send_error` carries
`recoverable = true` unconditionally; in particular the terminal
integration-error path of `_execute_search_task` leaves the session in the
terminal status `error` while broadcasting `recoverable = true`. -/
theorem error_events_always_recoverable (m : SessionManager) (sid msg : String)
    (sess : SearchResult) (now : Nat) (hs : dictGet m.sessions sid = some sess) :
    (∀ (e : String) (search_id step_id : Option String) (t : Nat),
      (send_error e search_id step_id t).data.recoverable = true) ∧
    ((execute_search_task_on_integration_error m sid msg now).1.toOption.bind
      (fun m' => (dictGet m'.sessions sid).map SearchResult.status) = some .error) ∧
    (execute_search_task_on_integration_error m sid msg now).2.data.recoverable = true := by
  refine ⟨fun e search_id step_id t => rfl, ?_, rfl⟩
  exact update_session_status_status_after m sid sess .error
    (some ("Integration error: " ++ msg)) now hs

/-- C7, witness for the amended theorem on a concrete store. -/
theorem error_events_always_recoverable_witness :
    (∀ (e : String) (search_id step_id : Option String) (t : Nat),
      (send_error e search_id step_id t).data.recoverable = true) ∧
    ((execute_search_task_on_integration_error
        (create_search_session SessionManager.empty "q" "s" 0).1 "s" "boom" 5).1.toOption.bind
      (fun m' => (dictGet m'.sessions "s").map SearchResult.status) = some .error) ∧
    (execute_search_task_on_integration_error
        (create_search_session SessionManager.empty "q" "s" 0).1 "s" "boom" 5).2.data.recoverable = true :=
  error_events_always_recoverable
    (create_search_session SessionManager.empty "q" "s" 0).1 "s" "boom" _ 5 rfl

/-- C1, counterexample. A Session that has reached the terminal status
`completed` (via `set_final_answer`) is still mutated by a subsequent
`update_session_status`: the call succeeds and overwrites the status with
`thinking`, so mutation of terminal sessions is not a no-op. -/
theorem completed_session_mutated_by_update :
    ((set_final_answer (create_search_session SessionManager.empty "q" "s" 0).1
        "s" "ans" 1).toOption.map
      (fun m2 =>
        ((dictGet m2.sessions "s").map SearchResult.status,
         (update_session_status m2 "s" .thinking none 2).toOption.bind
           (fun m3 => (dictGet m3.sessions "s").map SearchResult.status))))
      = some (some .completed, some .thinking) := by rfl

/-- C1, amended. The store has no terminal-state guard: for a Session in a
terminal status (hence removed from the active set), only `cancel_search`
is refused — it raises and, raising, leaves the store unchanged — while
`update_session_status`, `add_step` and `set_final_answer` still succeed
and mutate the terminal session exactly as they would a live one. -/
theorem terminal_sessions_not_guarded (m : SessionManager) (sid : String)
    (sess : SearchResult) (hs : dictGet m.sessions sid = some sess)
    (ht : sess.status.isTerminal = true) (ha : sid ∉ m.active_searches) :
    (∀ (reason : Option String) (now : Nat),
      cancel_search m sid reason now = .error ("Search " ++ sid ++ " is not active")) ∧
    (∀ (st : SearchStatus) (now : Nat),
      (update_session_status m sid st none now).toOption.bind
        (fun m' => (dictGet m'.sessions sid).map SearchResult.status) = some st) ∧
    (∀ step : ThinkingStep,
      (add_step m sid step).toOption.bind
        (fun m' => (dictGet m'.sessions sid).map SearchResult.steps)
        = some (addOrReplace sess.steps step)) ∧
    (∀ (ans : String) (now : Nat),
      (set_final_answer m sid ans now).toOption.bind
        (fun m' => (dictGet m'.sessions sid).map
          (fun s => (s.final_answer, s.status)))
        = some (some ans, .completed)) := by
  clear ht
  refine ⟨?_, ?_, ?_, ?_⟩
  · intro reason now
    simp [cancel_search, hs, ha]
  · intro st now
    exact update_session_status_status_after m sid sess st none now hs
  · intro step
    simp [add_step, Except.toOption, hs, dictGet_dictSet_self]
  · intro ans now
    simp [set_final_answer, update_session_status, Except.toOption, hs,
      dictGet_dictSet_self, SearchStatus.isTerminal]

/-- C1, witness for the amended theorem on a concrete terminal store. -/
theorem terminal_sessions_not_guarded_witness :
    cancel_search
        { sessions := [("s",
            { id := "s", query := "q", status := .completed, steps := [],
              final_answer := some "ans", sources := [], start_time := 0,
              end_time := some 1, error := none, duration_seconds := some 1 })],
          active_searches := [] } "s" none 2
      = .error "Search s is not active" ∧
    (update_session_status
        { sessions := [("s",
            { id := "s", query := "q", status := .completed, steps := [],
              final_answer := some "ans", sources := [], start_time := 0,
              end_time := some 1, error := none, duration_seconds := some 1 })],
          active_searches := [] } "s" .thinking none 2).toOption.bind
      (fun m' => (dictGet m'.sessions "s").map SearchResult.status)
      = some .thinking :=
  ⟨(terminal_sessions_not_guarded
      { sessions := [("s",
          { id := "s", query := "q", status := .completed, steps := [],
            final_answer := some "ans", sources := [], start_time := 0,
            end_time := some 1, error := none, duration_seconds := some 1 })],
        active_searches := [] } "s"
      { id := "s", query := "q", status := .completed, steps := [],
        final_answer := some "ans", sources := [], start_time := 0,
        end_time := some 1, error := none, duration_seconds := some 1 }
      rfl rfl (by decide)).1 none 2,
   (terminal_sessions_not_guarded
      { sessions := [("s",
          { id := "s", query := "q", status := .completed, steps := [],
            final_answer := some "ans", sources := [], start_time := 0,
            end_time := some 1, error := none, duration_seconds := some 1 })],
        active_searches := [] } "s"
      { id := "s", query := "q", status := .completed, steps := [],
        final_answer := some "ans", sources := [], start_time := 0,
        end_time := some 1, error := none, duration_seconds := some 1 }
      rfl rfl (by decide)).2.1 .thinking 2⟩

/-- C3, counterexample. A store already holding `MAX_CONCURRENT_SEARCHES`
(= 10) active Sessions still accepts `start_search`: the request is not
rejected, an 11th Session is created, and the active count exceeds the
configured cap — no capacity check exists anywhere in `start_search`. -/
theorem eleventh_search_accepted_beyond_cap :
    ((["s0", "s1", "s2", "s3", "s4", "s5", "s6", "s7", "s8", "s9"].foldl
        (fun m sid => (create_search_session m "q" sid 0).1)
        SessionManager.empty).active_searches.length = MAX_CONCURRENT_SEARCHES) ∧
    ((start_search
        (["s0", "s1", "s2", "s3", "s4", "s5", "s6", "s7", "s8", "s9"].foldl
          (fun m sid => (create_search_session m "q" sid 0).1)
          SessionManager.empty) "q" "s10" 0).toOption.map
      (fun r => r.1.active_searches.length)
      = some (MAX_CONCURRENT_SEARCHES + 1)) := by
  constructor
  · rfl
  · rfl

/-- C3, amended. `start_search` enforces no concurrency cap: for every
store, a request with a non-whitespace query and a fresh id always
succeeds and grows the active set by one, however many Sessions are
already active — so the `MAX_CONCURRENT_SEARCHES` setting (10) is never
consulted and no capacity error exists. -/
theorem start_search_never_rejects_on_capacity (m : SessionManager)
    (q fid : String) (now : Nat) (hq : pyStrip q ≠ "")
    (hf : fid ∉ m.active_searches) :
    (start_search m q fid now).toOption.map
      (fun r => r.1.active_searches.length)
      = some (m.active_searches.length + 1) := by
  simp [start_search, hq, Except.toOption, create_search_session, setAdd, hf]

/-- C3, witness for the amended theorem at a store with ten active
sessions. -/
theorem start_search_never_rejects_on_capacity_witness :
    (start_search
        (["s0", "s1", "s2", "s3", "s4", "s5", "s6", "s7", "s8", "s9"].foldl
          (fun m sid => (create_search_session m "q" sid 0).1)
          SessionManager.empty) "q" "s10" 0).toOption.map
      (fun r => r.1.active_searches.length)
      = some ((["s0", "s1", "s2", "s3", "s4", "s5", "s6", "s7", "s8", "s9"].foldl
          (fun m sid => (create_search_session m "q" sid 0).1)
          SessionManager.empty).active_searches.length + 1) :=
  start_search_never_rejects_on_capacity _ "q" "s10" 0 (by decide) (by decide)

/-- After a successful `cancel_search` the session still exists but has
been discarded from the active set. -/
theorem cancel_search_ok_shape (m : SessionManager) (sid : String)
    (sess : SearchResult) (r : Option String) (t : Nat)
    (hg : dictGet m.sessions sid = some sess) (hmem : sid ∈ m.active_searches) :
    ∃ m1, cancel_search m sid r t = .ok m1 ∧
      (dictGet m1.sessions sid).isSome = true ∧
      m1.active_searches = setDiscard m.active_searches sid := by
  rcases r with _ | e
  · simp [cancel_search, update_session_status, hg, hmem, dictGet_dictSet_self,
      SearchStatus.isTerminal]
  · by_cases he : e = "" <;>
      simp [cancel_search, update_session_status, hg, hmem, he,
        dictGet_dictSet_self, SearchStatus.isTerminal]

/-- C5, counterexample. Cancelling an already-cancelled Session does not
succeed: the first `cancel_search` moves the session out of the active
set, so the second invocation raises (`is not active`) instead of being a
successful no-op. -/
theorem second_cancel_not_successful :
    ((cancel_search (create_search_session SessionManager.empty "q" "s" 0).1
        "s" none 1).toOption.map
      (fun m2 => exceptOk (cancel_search m2 "s" none 2))) = some false := by rfl

/-- C5, amended. `cancel_search` is state-idempotent but not
success-idempotent: after a successful cancel, a second cancel of the same
Session raises `SearchException("... is not active")` — and, raising, it
returns no new store, so the store state after two cancels equals the state
after one. -/
theorem cancel_then_cancel_raises (m m1 : SessionManager) (sid : String)
    (r1 r2 : Option String) (t1 t2 : Nat)
    (h : cancel_search m sid r1 t1 = .ok m1) :
    cancel_search m1 sid r2 t2 = .error ("Search " ++ sid ++ " is not active") := by
  by_cases hmem : sid ∈ m.active_searches
  · rcases hgg : dictGet m.sessions sid with _ | sess
    · simp [cancel_search, hgg] at h
    · obtain ⟨m1', hok, hsome, hact⟩ := cancel_search_ok_shape m sid sess r1 t1 hgg hmem
      rw [hok] at h
      injection h with h
      subst h
      rcases Option.isSome_iff_exists.1 hsome with ⟨s1, hs1⟩
      have hnot : sid ∉ m1'.active_searches := by
        rw [hact]; exact not_mem_setDiscard m.active_searches sid
      simp [cancel_search, hs1, hnot]
  · rcases hgg : dictGet m.sessions sid with _ | sess <;>
      simp [cancel_search, hgg, hmem] at h

/-- Step-by-step characterisation of `addOrReplace` on a cons cell. -/
theorem addOrReplace_cons (s : ThinkingStep) (rest : List ThinkingStep)
    (step : ThinkingStep) :
    addOrReplace (s :: rest) step =
      if s.id = step.id then step :: rest else s :: addOrReplace rest step := by
  unfold addOrReplace
  by_cases h : s.id = step.id
  · simp [List.findIdx?_cons, h]
  · simp only [List.findIdx?_cons, List.findIdx?_succ]
    rw [if_neg (by simpa using h)]
    cases hfi : rest.findIdx? (fun s' => s'.id = step.id) with
    | none => simp [hfi, h]
    | some j => simp [hfi, h]

/-- With no step of the same id present, `addOrReplace` appends. -/
theorem addOrReplace_append_of_not_mem (steps : List ThinkingStep)
    (step : ThinkingStep) (h : ∀ s ∈ steps, s.id ≠ step.id) :
    addOrReplace steps step = steps ++ [step] := by
  induction steps with
  | nil => rfl
  | cons s rest ih =>
    rw [addOrReplace_cons, if_neg (h s (by simp))]
    rw [ih (fun x hx => h x (by simp [hx]))]
    simp

/-- With a step of the same id present, `addOrReplace` overwrites it in
place: same length, replacement at the position of the matching step. -/
theorem addOrReplace_replaces (steps : List ThinkingStep) (step : ThinkingStep)
    (h : ∃ s ∈ steps, s.id = step.id) :
    ∃ i, ∃ hi : i < steps.length,
      (steps.get ⟨i, hi⟩).id = step.id ∧
      addOrReplace steps step = steps.set i step ∧
      (addOrReplace steps step).length = steps.length := by
  induction steps with
  | nil => simp at h
  | cons s rest ih =>
    by_cases hs : s.id = step.id
    · refine ⟨0, by simp, hs, ?_, ?_⟩
      · rw [addOrReplace_cons, if_pos hs]
        rfl
      · rw [addOrReplace_cons, if_pos hs]
        simp
    · have h' : ∃ x ∈ rest, x.id = step.id := by
        rcases h with ⟨x, hx, hxid⟩
        rcases List.mem_cons.1 hx with rfl | hx'
        · exact absurd hxid hs
        · exact ⟨x, hx', hxid⟩
      rcases ih h' with ⟨i, hi, hid, heq, hlen⟩
      refine ⟨i + 1, by simpa using Nat.succ_lt_succ hi, ?_, ?_, ?_⟩
      · exact hid
      · rw [addOrReplace_cons, if_neg hs, heq]
        rfl
      · rw [addOrReplace_cons, if_neg hs]
        simpa using hlen

/-- Every id present after `addOrReplace` is either the new step's id or an
id that was already present. -/
theorem mem_map_id_addOrReplace (steps : List ThinkingStep) (step : ThinkingStep)
    (x : String) (hx : x ∈ (addOrReplace steps step).map (fun s => s.id)) :
    x = step.id ∨ x ∈ steps.map (fun s => s.id) := by
  induction steps with
  | nil =>
    simp [addOrReplace] at hx
    simp [hx]
  | cons s rest ih =>
    rw [addOrReplace_cons] at hx
    by_cases hs : s.id = step.id
    · rw [if_pos hs] at hx
      rcases List.mem_map.1 hx with ⟨y, hy, rfl⟩
      rcases List.mem_cons.1 hy with rfl | hy'
      · exact Or.inl rfl
      · exact Or.inr (by simp; exact Or.inr ⟨y, hy', rfl⟩)
    · rw [if_neg hs] at hx
      rcases List.mem_map.1 hx with ⟨y, hy, rfl⟩
      rcases List.mem_cons.1 hy with rfl | hy'
      · exact Or.inr (by simp)
      · rcases ih (List.mem_map.2 ⟨y, hy', rfl⟩) with h1 | h1
        · exact Or.inl h1
        · exact Or.inr (by simp at h1 ⊢; exact Or.inr h1)

/-- `addOrReplace` preserves uniqueness of step ids. -/
theorem nodup_ids_addOrReplace (steps : List ThinkingStep) (step : ThinkingStep)
    (h : (steps.map (fun s => s.id)).Nodup) :
    ((addOrReplace steps step).map (fun s => s.id)).Nodup := by
  induction steps with
  | nil => simp [addOrReplace]
  | cons s rest ih =>
    rw [addOrReplace_cons]
    rw [List.map_cons, List.nodup_cons] at h
    by_cases hs : s.id = step.id
    · rw [if_pos hs]
      rw [List.map_cons, List.nodup_cons]
      exact ⟨by rw [← hs]; exact h.1, h.2⟩
    · rw [if_neg hs]
      rw [List.map_cons, List.nodup_cons]
      refine ⟨?_, ih h.2⟩
      intro hmem
      rcases mem_map_id_addOrReplace rest step s.id hmem with h1 | h1
      · exact hs h1
      · exact h.1 h1

/-- C8. Step upsert: `add_step` with an id already present overwrites the
matching step in place (same length, same position); with a new id it
appends at the end; it therefore preserves uniqueness of step ids within a
Session; and at the store level the session's step list becomes exactly
`addOrReplace` of the old list. -/
theorem step_upsert (steps : List ThinkingStep) (step : ThinkingStep) :
    ((∃ s ∈ steps, s.id = step.id) →
      ∃ i, ∃ hi : i < steps.length,
        (steps.get ⟨i, hi⟩).id = step.id ∧
        addOrReplace steps step = steps.set i step ∧
        (addOrReplace steps step).length = steps.length) ∧
    ((∀ s ∈ steps, s.id ≠ step.id) →
      addOrReplace steps step = steps ++ [step]) ∧
    ((steps.map (fun s => s.id)).Nodup →
      ((addOrReplace steps step).map (fun s => s.id)).Nodup) ∧
    (∀ (m : SessionManager) (sid : String) (sess : SearchResult),
      dictGet m.sessions sid = some sess →
      (add_step m sid step).toOption.bind
          (fun m' => (dictGet m'.sessions sid).map SearchResult.steps)
        = some (addOrReplace sess.steps step)) := by
  refine ⟨addOrReplace_replaces steps step,
    addOrReplace_append_of_not_mem steps step,
    nodup_ids_addOrReplace steps step, ?_⟩
  intro m sid sess hs
  simp [add_step, Except.toOption, hs, dictGet_dictSet_self]

/-- C8, witness: upsert behaviour evaluated on concrete steps (one replace,
one append) and a concrete store. -/
theorem step_upsert_witness :
    (addOrReplace
        [{ id := "p1", type := .plan, status := .running, title := "t",
           content := some "", timestamp := 0, metadata := none }]
        { id := "p2", type := .search, status := .running, title := "u",
          content := some "", timestamp := 1, metadata := none }
      = [{ id := "p1", type := .plan, status := .running, title := "t",
           content := some "", timestamp := 0, metadata := none },
         { id := "p2", type := .search, status := .running, title := "u",
           content := some "", timestamp := 1, metadata := none }]) ∧
    ((addOrReplace
        [{ id := "p1", type := .plan, status := .running, title := "t",
           content := some "", timestamp := 0, metadata := none }]
        { id := "p1", type := .plan, status := .completed, title := "t",
          content := some "done", timestamp := 2, metadata := none }).map
      (fun s => s.id)).Nodup ∧
    ((add_step
        { sessions := [("s",
            { id := "s", query := "q", status := .thinking, steps := [],
              final_answer := none, sources := [], start_time := 0,
              end_time := none, error := none, duration_seconds := none })],
          active_searches := ["s"] } "s"
        { id := "p1", type := .plan, status := .running, title := "t",
          content := some "", timestamp := 0, metadata := none }).toOption.bind
        (fun m' => (dictGet m'.sessions "s").map SearchResult.steps)
      = some (addOrReplace []
          { id := "p1", type := .plan, status := .running, title := "t",
            content := some "", timestamp := 0, metadata := none })) :=
  ⟨(step_upsert
      [{ id := "p1", type := .plan, status := .running, title := "t",
         content := some "", timestamp := 0, metadata := none }]
      { id := "p2", type := .search, status := .running, title := "u",
        content := some "", timestamp := 1, metadata := none }).2.1 (by decide),
   (step_upsert
      [{ id := "p1", type := .plan, status := .running, title := "t",
         content := some "", timestamp := 0, metadata := none }]
      { id := "p1", type := .plan, status := .completed, title := "t",
        content := some "done", timestamp := 2, metadata := none }).2.2.1 (by decide),
   (step_upsert
      [{ id := "p1", type := .plan, status := .running, title := "t",
         content := some "", timestamp := 0, metadata := none }]
      { id := "p1", type := .plan, status := .running, title := "t",
        content := some "", timestamp := 0, metadata := none }).2.2.2
     { sessions := [("s",
         { id := "s", query := "q", status := .thinking, steps := [],
           final_answer := none, sources := [], start_time := 0,
           end_time := none, error := none, duration_seconds := none })],
       active_searches := ["s"] } "s"
     { id := "s", query := "q", status := .thinking, steps := [],
       final_answer := none, sources := [], start_time := 0,
       end_time := none, error := none, duration_seconds := none } rfl⟩

/-- Folding `collectFold` over raw entries equals folding `dedupStep` over
the candidates those entries contribute. -/
theorem foldl_collectFold_eq (raws : List RawSource)
    (acc : List SourceInfo × List String) :
    raws.foldl collectFold acc =
      (raws.filterMap rawCandidate).foldl dedupStep acc := by
  induction raws generalizing acc with
  | nil => rfl
  | cons r rs ih =>
    cases hr : rawCandidate r with
    | none =>
      rw [List.foldl_cons, List.filterMap_cons_none hr]
      rw [show collectFold acc r = acc by simp [collectFold, hr]]
      exact ih acc
    | some c =>
      rw [List.foldl_cons, List.filterMap_cons_some hr, List.foldl_cons]
      rw [show collectFold acc r = dedupStep acc c by simp [collectFold, dedupStep, hr]]
      exact ih _

/-- The two-level aggregation loop of `_collect_sources` equals first-seen
deduplication over the flat candidate stream. -/
theorem collectSourcesList_eq_dedup (steps : List ThinkingStep) :
    collectSourcesList steps = (sourceCandidates steps).foldl dedupStep ([], []) := by
  suffices h : ∀ acc,
      steps.foldl (fun acc step => (stepRawSources step).foldl collectFold acc) acc
        = ((steps.flatMap stepRawSources).filterMap rawCandidate).foldl dedupStep acc by
    exact h ([], [])
  induction steps with
  | nil => intro acc; rfl
  | cons s rest ih =>
    intro acc
    rw [List.foldl_cons, List.flatMap_cons, List.filterMap_append, List.foldl_append]
    rw [foldl_collectFold_eq]
    exact ih _

/-- Invariant of the first-seen deduplication fold: the seen set is exactly
the links of the accumulated sources, those links are duplicate-free, the
accumulated sources form a subsequence of the processed candidates, each
accumulated source is the first processed candidate with its link, and
every processed candidate's link has been seen. -/
theorem dedup_fold_invariant (cands : List SourceInfo) :
    ∀ (processed : List SourceInfo) (acc : List SourceInfo × List String),
      acc.2 = acc.1.map (fun s => s.link) →
      (acc.1.map (fun s => s.link)).Nodup →
      acc.1.Sublist processed →
      (∀ e ∈ acc.1, processed.find? (fun c => c.link = e.link) = some e) →
      (∀ c ∈ processed, c.link ∈ acc.2) →
      ((cands.foldl dedupStep acc).2
          = (cands.foldl dedupStep acc).1.map (fun s => s.link) ∧
       ((cands.foldl dedupStep acc).1.map (fun s => s.link)).Nodup ∧
       (cands.foldl dedupStep acc).1.Sublist (processed ++ cands) ∧
       (∀ e ∈ (cands.foldl dedupStep acc).1,
         (processed ++ cands).find? (fun c => c.link = e.link) = some e) ∧
       (∀ c ∈ processed ++ cands, c.link ∈ (cands.foldl dedupStep acc).2)) := by
  induction cands with
  | nil =>
    intro processed acc h1 h2 h3 h4 h5
    simpa using ⟨h1, h2, h3, h4, h5⟩
  | cons c cs ih =>
    intro processed acc h1 h2 h3 h4 h5
    rw [List.foldl_cons]
    have key := ih (processed ++ [c]) (dedupStep acc c) ?_ ?_ ?_ ?_ ?_
    · rw [List.append_assoc, List.singleton_append] at key
      exact key
    · by_cases hmem : c.link ∈ acc.2
      · rw [show dedupStep acc c = acc from if_pos hmem]
        exact h1
      · rw [show dedupStep acc c = (acc.1 ++ [c], acc.2 ++ [c.link]) from if_neg hmem]
        simp [h1]
    · by_cases hmem : c.link ∈ acc.2
      · rw [show dedupStep acc c = acc from if_pos hmem]
        exact h2
      · rw [show dedupStep acc c = (acc.1 ++ [c], acc.2 ++ [c.link]) from if_neg hmem]
        simp only [List.map_append, List.map_cons, List.map_nil]
        rw [List.nodup_append]
        refine ⟨h2, by simp, ?_⟩
        intro x hx
        simp only [List.mem_cons, List.not_mem_nil, or_false]
        intro hxc
        rw [← h1] at hx
        exact hmem (hxc ▸ hx)
    · by_cases hmem : c.link ∈ acc.2
      · rw [show dedupStep acc c = acc from if_pos hmem]
        exact h3.trans (List.sublist_append_left processed [c])
      · rw [show dedupStep acc c = (acc.1 ++ [c], acc.2 ++ [c.link]) from if_neg hmem]
        exact h3.append_right [c]
    · by_cases hmem : c.link ∈ acc.2
      · rw [show dedupStep acc c = acc from if_pos hmem]
        intro e he
        rw [List.find?_append, h4 e he, Option.or_some]
      · rw [show dedupStep acc c = (acc.1 ++ [c], acc.2 ++ [c.link]) from if_neg hmem]
        intro e he
        rcases List.mem_append.1 he with he1 | he1
        · rw [List.find?_append, h4 e he1, Option.or_some]
        · rw [List.mem_singleton.1 he1]
          have hnone : processed.find? (fun x => x.link = c.link) = none := by
            rw [List.find?_eq_none]
            intro x hx
            simp only [decide_eq_true_eq]
            intro hxc
            exact hmem (hxc ▸ h5 x hx)
          rw [List.find?_append, hnone, Option.none_or]
          simp [List.find?]
    · by_cases hmem : c.link ∈ acc.2
      · rw [show dedupStep acc c = acc from if_pos hmem]
        intro x hx
        rcases List.mem_append.1 hx with hx1 | hx1
        · exact h5 x hx1
        · rw [List.mem_singleton.1 hx1]
          exact hmem
      · rw [show dedupStep acc c = (acc.1 ++ [c], acc.2 ++ [c.link]) from if_neg hmem]
        intro x hx
        rcases List.mem_append.1 hx with hx1 | hx1
        · exact List.mem_append_left _ (h5 x hx1)
        · rw [List.mem_singleton.1 hx1]
          exact List.mem_append_right _ (by simp)

/-- C9. Source deduplication: the sources `_collect_sources` records on the
session are the aggregation of its steps' raw sources, whose links are
duplicate-free, which form a subsequence of the candidate stream (so
first-seen order is preserved), and in which every entry is the first
candidate carrying its link. -/
theorem source_dedup (m : SessionManager) (sid : String) (sess : SearchResult)
    (hs : dictGet m.sessions sid = some sess)
    (hne : (collectSourcesList sess.steps).1 ≠ []) :
    ((dictGet (collect_sources m sid).sessions sid).map (fun s => s.sources)
        = some (collectSourcesList sess.steps).1) ∧
    (((collectSourcesList sess.steps).1.map (fun s => s.link)).Nodup) ∧
    ((collectSourcesList sess.steps).1.Sublist (sourceCandidates sess.steps)) ∧
    (∀ e ∈ (collectSourcesList sess.steps).1,
      (sourceCandidates sess.steps).find? (fun c => c.link = e.link) = some e) := by
  have base := dedup_fold_invariant (sourceCandidates sess.steps) [] ([], [])
    rfl List.nodup_nil (List.nil_sublist _) (by intro e he; simp at he)
    (by intro c hc; simp at hc)
  rw [← collectSourcesList_eq_dedup] at base
  simp only [List.nil_append] at base
  refine ⟨?_, base.2.1, base.2.2.1, base.2.2.2.1⟩
  simp [collect_sources, hs, hne, dictGet_dictSet_self]

/-- C9, witness on a concrete session whose steps carry a duplicate link, a
link-less dict, a non-dict entry and an empty link. -/
theorem source_dedup_witness :
    ((dictGet (collect_sources
        { sessions := [("s",
            { id := "s", query := "q", status := .thinking,
              steps := [
                { id := "p1", type := .search, status := .completed, title := "t",
                  content := some "", timestamp := 0,
                  metadata := some { sources := some [
                    .dict (some "T1") (some "http://a") none,
                    .dict none (some "http://a") none,
                    .other "plain",
                    .dict (some "T2") none none,
                    .dict (some "T3") (some "") none] } },
                { id := "p2", type := .search, status := .completed, title := "u",
                  content := some "", timestamp := 1,
                  metadata := some { sources := some [
                    .dict (some "T4") (some "http://b") none,
                    .dict (some "T5") (some "http://a") none] } }],
              final_answer := none, sources := [], start_time := 0,
              end_time := none, error := none, duration_seconds := none })],
          active_searches := ["s"] } "s").sessions "s").map (fun s => s.sources)
      = some (collectSourcesList [
          { id := "p1", type := .search, status := .completed, title := "t",
            content := some "", timestamp := 0,
            metadata := some { sources := some [
              .dict (some "T1") (some "http://a") none,
              .dict none (some "http://a") none,
              .other "plain",
              .dict (some "T2") none none,
              .dict (some "T3") (some "") none] } },
          { id := "p2", type := .search, status := .completed, title := "u",
            content := some "", timestamp := 1,
            metadata := some { sources := some [
              .dict (some "T4") (some "http://b") none,
              .dict (some "T5") (some "http://a") none] } }]).1) ∧
    ((collectSourcesList [
        { id := "p1", type := .search, status := .completed, title := "t",
          content := some "", timestamp := 0,
          metadata := some { sources := some [
            .dict (some "T1") (some "http://a") none,
            .dict none (some "http://a") none,
            .other "plain",
            .dict (some "T2") none none,
            .dict (some "T3") (some "") none] } },
        { id := "p2", type := .search, status := .completed, title := "u",
          content := some "", timestamp := 1,
          metadata := some { sources := some [
            .dict (some "T4") (some "http://b") none,
            .dict (some "T5") (some "http://a") none] } }]).1.map
      (fun s => s.link)).Nodup := by
  have h := source_dedup
    { sessions := [("s",
        { id := "s", query := "q", status := .thinking,
          steps := [
            { id := "p1", type := .search, status := .completed, title := "t",
              content := some "", timestamp := 0,
              metadata := some { sources := some [
                .dict (some "T1") (some "http://a") none,
                .dict none (some "http://a") none,
                .other "plain",
                .dict (some "T2") none none,
                .dict (some "T3") (some "") none] } },
            { id := "p2", type := .search, status := .completed, title := "u",
              content := some "", timestamp := 1,
              metadata := some { sources := some [
                .dict (some "T4") (some "http://b") none,
                .dict (some "T5") (some "http://a") none] } }],
          final_answer := none, sources := [], start_time := 0,
          end_time := none, error := none, duration_seconds := none })],
      active_searches := ["s"] } "s"
    { id := "s", query := "q", status := .thinking,
      steps := [
        { id := "p1", type := .search, status := .completed, title := "t",
          content := some "", timestamp := 0,
          metadata := some { sources := some [
            .dict (some "T1") (some "http://a") none,
            .dict none (some "http://a") none,
            .other "plain",
            .dict (some "T2") none none,
            .dict (some "T3") (some "") none] } },
        { id := "p2", type := .search, status := .completed, title := "u",
          content := some "", timestamp := 1,
          metadata := some { sources := some [
            .dict (some "T4") (some "http://b") none,
            .dict (some "T5") (some "http://a") none] } }],
      final_answer := none, sources := [], start_time := 0,
      end_time := none, error := none, duration_seconds := none }
    rfl (by decide)
  exact ⟨h.1, h.2.1⟩

/-- The delivery loop delivers to exactly the clients whose send succeeds
and records exactly the others as disconnected, in registry order. -/
theorem broadcastLoop_filter (conns : List String) (f : String → Bool) :
    (broadcastLoop conns f).1 = conns.filter f ∧
    (broadcastLoop conns f).2 = conns.filter (fun c => !f c) := by
  induction conns with
  | nil => exact ⟨rfl, rfl⟩
  | cons c rest ih =>
    by_cases hc : f c = true <;>
      simp [broadcastLoop, hc, List.filter_cons, ih.1, ih.2]

/-- C10. Broadcast resilience: every client registered at the start of
`broadcast_message` whose own send succeeds receives the message — one
subscriber's failure never blocks delivery to the rest, because the
delivered list is exactly the send-succeeding prefix-order filter of the
registry — and the failed subscribers are removed from the registry only
after the delivery loop, leaving exactly the send-succeeding clients. -/
theorem broadcast_resilience (conns : List String) (send_ok : String → Bool) :
    ((broadcast_message conns send_ok).1 = conns.filter (fun c => send_ok c)) ∧
    (∀ c ∈ conns, send_ok c = true → c ∈ (broadcast_message conns send_ok).1) ∧
    ((broadcast_message conns send_ok).2 = conns.filter (fun c => send_ok c)) ∧
    (∀ c ∈ conns, send_ok c = false → c ∉ (broadcast_message conns send_ok).2) := by
  have hreg : (broadcast_message conns send_ok).2
      = conns.filter (fun c => send_ok c) := by
    unfold broadcast_message
    by_cases hn : conns = []
    · subst hn; simp
    · rw [if_neg hn]
      show conns.filter (fun c => c ∉ (broadcastLoop conns send_ok).2)
        = conns.filter (fun c => send_ok c)
      refine List.filter_congr ?_
      intro x hx
      rw [(broadcastLoop_filter conns send_ok).2]
      by_cases hfx : send_ok x = true
      · simp [List.mem_filter, hfx]
      · simp [List.mem_filter, hx, Bool.eq_false_iff.2 hfx]
  have hdel : (broadcast_message conns send_ok).1
      = conns.filter (fun c => send_ok c) := by
    unfold broadcast_message
    by_cases hn : conns = []
    · subst hn; simp
    · rw [if_neg hn]
      exact (broadcastLoop_filter conns send_ok).1
  refine ⟨hdel, ?_, hreg, ?_⟩
  · intro c hc hok
    rw [hdel]
    exact List.mem_filter.2 ⟨hc, hok⟩
  · intro c hc hfail
    rw [hreg]
    intro hmem
    rw [(List.mem_filter.1 hmem).2] at hfail
    cases hfail

/-- C10, witness: with three registered clients of which the middle one
fails to send, the later client still receives the message and only the
failed client is dropped from the registry. -/
theorem broadcast_resilience_witness :
    "c" ∈ (broadcast_message ["a", "b", "c"] (fun c => c ≠ "b")).1 ∧
    "b" ∉ (broadcast_message ["a", "b", "c"] (fun c => c ≠ "b")).2 :=
  ⟨(broadcast_resilience ["a", "b", "c"] (fun c => c ≠ "b")).2.1 "c"
      (by decide) (by decide),
   (broadcast_resilience ["a", "b", "c"] (fun c => c ≠ "b")).2.2.2 "b"
      (by decide) (by decide)⟩

/-- C5, witness for the amended theorem on a concrete store. -/
theorem cancel_then_cancel_raises_witness :
    cancel_search
        { sessions := [("s",
            { id := "s", query := "q", status := .cancelled, steps := [],
              final_answer := none, sources := [], start_time := 0,
              end_time := some 1, error := none, duration_seconds := some 1 })],
          active_searches := [] } "s" none 2
      = .error "Search s is not active" :=
  cancel_then_cancel_raises
    (create_search_session SessionManager.empty "q" "s" 0).1 _ "s" none none 1 2 rfl

end OpenProbe
